import Mathlib

/-
Verification development for the health-mcp server
(src/tools/health-mcp/src/health_mcp.py).

The Python module is shallowly embedded here:
  * JSON scalar values are modelled by `PyVal` (Python floats are modelled
    as rationals; the claims under study never depend on binary rounding).
  * Python dictionaries produced by the extractors are modelled by Lean
    structures whose optional fields are `Option PyVal` (`none` = key absent,
    `some PyVal.vNone` = key present with JSON null).
  * Machine-independent string routines (strip / lower / upper / find /
    replace / substring scan) are re-implemented over `List Char`, matching
    CPython semantics on ASCII data.
  * Database effects are modelled by an explicit trace of `StoreOp` values;
    fallible external steps (connection, inserts, commit) are driven by a
    boolean environment so that every failure interleaving is covered.
-/

/-- Python-like JSON scalar values; floats are modelled as rationals. -/
inductive PyVal where
  | vNone : PyVal
  | vBool : Bool → PyVal
  | vInt : Int → PyVal
  | vFloat : ℚ → PyVal
  | vStr : String → PyVal
deriving DecidableEq, Repr

/-- Python truthiness of a scalar value. -/
def truthy : PyVal → Bool
  | PyVal.vNone => false
  | PyVal.vBool b => b
  | PyVal.vInt n => n ≠ 0
  | PyVal.vFloat q => q ≠ 0
  | PyVal.vStr s => s ≠ ""

/-- Truthiness of an optional dictionary entry (missing key is falsy). -/
def truthyOpt : Option PyVal → Bool
  | none => false
  | some v => truthy v

/-- Python `isinstance(v, (int, float))`; booleans are ints in Python. -/
def pyIsNum : PyVal → Bool
  | PyVal.vBool _ => true
  | PyVal.vInt _ => true
  | PyVal.vFloat _ => true
  | _ => false

/-- Characters treated as whitespace by Python's `str.strip()` (ASCII part). -/
def isPyWs (c : Char) : Bool :=
  c = ' ' || c = '\t' || c = '\n' || c.toNat = 13 || c.toNat = 11 || c.toNat = 12

/-- Python `str.strip()` on a character list. -/
def pyStripChars (l : List Char) : List Char :=
  ((l.dropWhile isPyWs).reverse.dropWhile isPyWs).reverse

/-- Python `str.strip()`. -/
def pyStrip (s : String) : String := String.mk (pyStripChars s.data)

/-- Python `str.lower()` (ASCII). -/
def lowerStr (s : String) : String := String.mk (s.data.map Char.toLower)

/-- Python `str.upper()` (ASCII). -/
def upperStr (s : String) : String := String.mk (s.data.map Char.toUpper)

/-- First index of a character in a list, Python `str.find` style. -/
def firstIdx (c : Char) : List Char → Option Nat
  | [] => none
  | x :: t => if x = c then some 0 else (firstIdx c t).map (· + 1)

/-- Python substring containment `needle in hay`. -/
def hasSubChars (needle : List Char) : List Char → Bool
  | [] => needle.isEmpty
  | c :: t => needle.isPrefixOf (c :: t) || hasSubChars needle t

/-- Python substring containment on strings. -/
def hasSub (needle hay : String) : Bool := hasSubChars needle.data hay.data

/-- Numeric value of an ASCII digit character. -/
def digitVal (c : Char) : Nat := c.toNat - 48

/-- ASCII digit character for a digit `0..9`. -/
def digitChar : Nat → Char
  | 0 => '0'
  | 1 => '1'
  | 2 => '2'
  | 3 => '3'
  | 4 => '4'
  | 5 => '5'
  | 6 => '6'
  | 7 => '7'
  | 8 => '8'
  | 9 => '9'
  | _ => '*'

/-- Base-10 value of a digit-character list. -/
def natOfDigits (l : List Char) : Nat :=
  l.foldl (fun a c => a * 10 + digitVal c) 0

/-- Python `str.isdigit()` on ASCII data: nonempty and all decimal digits. -/
def allDigits (l : List Char) : Bool :=
  !l.isEmpty && l.all Char.isDigit

/-- Remove every `.` and `-` character (Python
`s.replace(".", "").replace("-", "")`). -/
def removeDotDash (l : List Char) : List Char :=
  l.filter (fun c => !(c = '.' || c = '-'))

/-- Shape of a `.`/`-`/digit string accepted by Python `float()`:
an optional leading minus, then digits with at most one dot and at least
one digit. Only consulted after the `isdigit` guard has restricted the
alphabet to digits, dots and dashes. -/
def floatChars (l : List Char) : Bool :=
  let l' := match l with
    | '-' :: t => t
    | _ => l
  l'.all (fun c => c.isDigit || c = '.') && l'.count '.' ≤ 1 && l'.any Char.isDigit

/-- Value of a plain decimal literal (used for the embedded `float()` call
on strings that already passed `floatChars`). -/
def ratOfDec (l : List Char) : ℚ :=
  let neg : Bool := match l with
    | '-' :: _ => true
    | _ => false
  let l' := match l with
    | '-' :: t => t
    | _ => l
  let intPart := l'.takeWhile (· ≠ '.')
  let fracPart := (l'.dropWhile (· ≠ '.')).drop 1
  let q : ℚ := (natOfDigits intPart : ℚ) + (natOfDigits fracPart : ℚ) / (10 ^ fracPart.length)
  if neg then -q else q

/-- Decimal rendering of a modelled float, approximating Python `str(float)`
far enough for the statistics strings (integral values render as `n.0`). -/
def ratToPyFloatStr (q : ℚ) : String :=
  let sign := if q < 0 then "-" else ""
  let a : ℚ := |q|
  let ip : Nat := a.floor.toNat
  let frac : ℚ := a - ip
  let digits : List Nat := (List.range 17).foldl
    (fun (st : List Nat × ℚ) _ =>
      let f10 := st.2 * 10
      (st.1 ++ [f10.floor.toNat], f10 - f10.floor.toNat))
    (([] : List Nat), frac) |>.1
  let trimmed := (digits.reverse.dropWhile (· = 0)).reverse
  let fracStr := if trimmed.isEmpty then "0" else String.mk (trimmed.map digitChar)
  sign ++ toString ip ++ "." ++ fracStr

/-- Python `str()` of a scalar value. -/
def pyStr : PyVal → String
  | PyVal.vNone => "None"
  | PyVal.vBool true => "True"
  | PyVal.vBool false => "False"
  | PyVal.vInt n => toString n
  | PyVal.vFloat q => ratToPyFloatStr q
  | PyVal.vStr s => s

/-- Calendar dates as produced by `datetime.date`. -/
structure PyDate where
  year : Nat
  month : Nat
  day : Nat
deriving DecidableEq, Repr

/-- Gregorian leap-year test, as in `datetime`. -/
def isLeap (y : Nat) : Bool := (y % 4 == 0 && y % 100 != 0) || y % 400 == 0

/-- Length of a month, as validated by the `datetime.date` constructor. -/
def daysInMonth (y m : Nat) : Nat :=
  if m = 2 then (if isLeap y then 29 else 28)
  else if m = 4 ∨ m = 6 ∨ m = 9 ∨ m = 11 then 30
  else 31

/-- Validity of a `datetime.date(y, m, d)` construction. -/
def validDate (y m d : Nat) : Bool :=
  1 ≤ y && y ≤ 9999 && 1 ≤ m && m ≤ 12 && 1 ≤ d && d ≤ daysInMonth y m

/-- `datetime.strptime(s, "%Y-%m-%d")` restricted to 10-character input:
the separators force the 4-2-2 digit layout, and the constructor validates
the calendar date. -/
def parseYMDChars (cs : List Char) : Option PyDate :=
  match cs with
  | [y1, y2, y3, y4, '-', m1, m2, '-', d1, d2] =>
    if y1.isDigit && y2.isDigit && y3.isDigit && y4.isDigit &&
       m1.isDigit && m2.isDigit && d1.isDigit && d2.isDigit then
      let y := ((digitVal y1 * 10 + digitVal y2) * 10 + digitVal y3) * 10 + digitVal y4
      let m := digitVal m1 * 10 + digitVal m2
      let d := digitVal d1 * 10 + digitVal d2
      if validDate y m d then some ⟨y, m, d⟩ else none
    else none
  | _ => none

/-- `datetime.strptime(s, "%m/%d/%Y")` restricted to 10-character input. -/
def parseMDYChars (cs : List Char) : Option PyDate :=
  match cs with
  | [m1, m2, '/', d1, d2, '/', y1, y2, y3, y4] =>
    if y1.isDigit && y2.isDigit && y3.isDigit && y4.isDigit &&
       m1.isDigit && m2.isDigit && d1.isDigit && d2.isDigit then
      let y := ((digitVal y1 * 10 + digitVal y2) * 10 + digitVal y3) * 10 + digitVal y4
      let m := digitVal m1 * 10 + digitVal m2
      let d := digitVal d1 * 10 + digitVal d2
      if validDate y m d then some ⟨y, m, d⟩ else none
    else none
  | _ => none

/-- Two ASCII digits bounded by `hi`, as in CPython's ISO time parser. -/
def parse2 (a b : Char) (hi : Nat) : Bool :=
  a.isDigit && b.isDigit && digitVal a * 10 + digitVal b ≤ hi

/-- CPython `_parse_hh_mm_ss_ff`: `HH[:MM[:SS[.fff[fff]]]]` with range
checks performed by the `time` constructor. -/
def validHMSF (l : List Char) : Bool :=
  match l with
  | [h1, h2] => parse2 h1 h2 23
  | [h1, h2, ':', m1, m2] => parse2 h1 h2 23 && parse2 m1 m2 59
  | [h1, h2, ':', m1, m2, ':', s1, s2] =>
      parse2 h1 h2 23 && parse2 m1 m2 59 && parse2 s1 s2 59
  | h1 :: h2 :: ':' :: m1 :: m2 :: ':' :: s1 :: s2 :: '.' :: fr =>
      parse2 h1 h2 23 && parse2 m1 m2 59 && parse2 s1 s2 59 &&
      (fr.length = 3 || fr.length = 6) && fr.all Char.isDigit
  | _ => false

/-- CPython time-zone split: the first `-`, else the first `+`, begins the
offset part of an ISO time string. -/
def signSplit (l : List Char) : Option (List Char × List Char) :=
  match firstIdx '-' l with
  | some i => some (l.take i, l.drop (i + 1))
  | none =>
    match firstIdx '+' l with
    | some i => some (l.take i, l.drop (i + 1))
    | none => none

/-- CPython `_parse_isoformat_time`: time of day plus an optional
`±HH:MM[:SS[.ffffff]]` offset whose rendering must be 5, 8 or 15 long. -/
def validIsoTime (l : List Char) : Bool :=
  match signSplit l with
  | none => validHMSF l
  | some (tp, tz) =>
      validHMSF tp && (tz.length == 5 || tz.length == 8 || tz.length == 15) && validHMSF tz

/-- `datetime.fromisoformat(s).date()`: a strict `YYYY-MM-DD` date part,
optionally followed by a one-character separator and a valid time part
(the date portion of the result). -/
def isoToDate (s : String) : Option PyDate :=
  let cs := s.data
  if cs.length < 10 then none
  else
    match parseYMDChars (cs.take 10) with
    | none => none
    | some d =>
      match cs.drop 10 with
      | [] => some d
      | _sep :: timeChars => if validIsoTime timeChars then some d else none

/-- `s.replace("Z", "+00:00")` on character lists. -/
def replaceZChars (l : List Char) : List Char :=
  (l.map (fun c => if c = 'Z' then "+00:00".data else [c])).flatten

/-- `s.replace("Z", "+00:00")`. -/
def replaceZ (s : String) : String := String.mk (replaceZChars s.data)

/-- Embedding of `parse_date` (health_mcp.py lines 82-98): falsy input gives
`none`; a 10-character string containing `-` goes to the `%Y-%m-%d` branch; a
10-character string containing `/` goes to the `%m/%d/%Y` branch; everything
else goes to `fromisoformat` after the `Z` replacement; every failure is
caught and yields `none`. -/
def parse_date (dateStr : Option String) : Option PyDate :=
  match dateStr with
  | none => none
  | some s =>
    if s = "" then none
    else if s.length = 10 && s.data.contains '-' then parseYMDChars s.data
    else if s.length = 10 && s.data.contains '/' then parseMDYChars s.data
    else isoToDate (replaceZ s)

/-- `parse_date` applied to a raw dictionary value, as at every call site:
a falsy value fails the `if not date_str` guard, and a truthy non-string
raises inside the `try` (so every non-string yields `none`). -/
def parseDateVal (v : Option PyVal) : Option PyDate :=
  match v with
  | some (PyVal.vStr s) => parse_date (some s)
  | _ => none

/-- `str(date)`: zero-padded `YYYY-MM-DD`. -/
def pad2 (n : Nat) : String := String.mk [digitChar (n / 10 % 10), digitChar (n % 10)]

/-- Zero-padded four-digit rendering. -/
def pad4 (n : Nat) : String :=
  String.mk [digitChar (n / 1000 % 10), digitChar (n / 100 % 10), digitChar (n / 10 % 10), digitChar (n % 10)]

/-- Python `str()` of a `date` value. -/
def dateToString (d : PyDate) : String :=
  pad4 d.year ++ "-" ++ pad2 d.month ++ "-" ++ pad2 d.day

/-- Python `date.__le__` (lexicographic on year, month, day). -/
def dateLeb (a b : PyDate) : Bool :=
  decide (a.year < b.year ∨ (a.year = b.year ∧
    (a.month < b.month ∨ (a.month = b.month ∧ a.day ≤ b.day))))

/-- Python `date.__lt__`. -/
def dateLtb (a b : PyDate) : Bool :=
  decide (a.year < b.year ∨ (a.year = b.year ∧
    (a.month < b.month ∨ (a.month = b.month ∧ a.day < b.day))))

/-- Python `max` over a list of dates (`none` on the empty list): keeps the
current value unless a strictly later one appears. -/
def pyMaxDate : List PyDate → Option PyDate
  | [] => none
  | h :: t => some (t.foldl (fun m x => if dateLtb m x then x else m) h)

/-- Canonical health record (one row of HEALTH_RECORDS). Optional fields
default to `none`, mirroring dictionary keys the extractors leave unset. -/
structure HealthRecord where
  record_id : String := ""
  patient_id : String := ""
  import_id : String := ""
  record_category : String
  record_date : Option PyDate := none
  provider : PyVal := PyVal.vStr "Unknown Provider"
  item_description : Option PyVal := none
  value_text : Option PyVal := none
  value_numeric : Option PyVal := none
  measurement_dimension : Option PyVal := none
  reference_range : Option PyVal := none
  flag : Option PyVal := none
  test_category : Option PyVal := none
  dosage : Option PyVal := none
  form : Option PyVal := none
  for_condition : Option PyVal := none
  frequency : Option PyVal := none
  medication_status : Option PyVal := none
  vital_category : Option PyVal := none
  condition_status : Option PyVal := none
  vaccine_category : Option PyVal := none
  procedure_category : Option PyVal := none
  allergy_category : Option PyVal := none
  source_file : String := ""
deriving DecidableEq, Repr

/-- One entry of a `Tests` array in a lab-results file. -/
structure LabTest where
  test_Name : Option PyVal := none
  test_Value : Option PyVal := none
  test_Unit : Option PyVal := none
  reference_Range : Option PyVal := none
  flag : Option PyVal := none
  test_Category : Option PyVal := none
deriving DecidableEq, Repr

/-- One entry of the `Lab_Results` array. -/
structure LabSession where
  test_Date : Option PyVal := none
  provider : Option PyVal := none
  tests : Option (List LabTest) := none
deriving DecidableEq, Repr

/-- Parsed lab-results document root. -/
structure LabFile where
  lab_Results : Option (List LabSession) := none
deriving DecidableEq, Repr

/-- One entry of the `Medications` array. -/
structure MedEntry where
  prescription_Date : Option PyVal := none
  provider : Option PyVal := none
  medication_Name : Option PyVal := none
  dosage : Option PyVal := none
  form : Option PyVal := none
  for_Condition : Option PyVal := none
  frequency : Option PyVal := none
  status : Option PyVal := none
deriving DecidableEq, Repr

/-- Parsed medications document root. -/
structure MedFile where
  medications : Option (List MedEntry) := none
deriving DecidableEq, Repr

/-- One entry of the `Vitals` array. -/
structure VitalEntry where
  measurement_Date : Option PyVal := none
  provider : Option PyVal := none
  vital_Type : Option PyVal := none
  vital_Value : Option PyVal := none
  vital_Unit : Option PyVal := none
deriving DecidableEq, Repr

/-- Parsed vitals document root. -/
structure VitalsFile where
  vitals : Option (List VitalEntry) := none
deriving DecidableEq, Repr

/-- One entry of the `Conditions` array of a clinical-data file. -/
structure CondEntry where
  diagnosis_Date : Option PyVal := none
  provider : Option PyVal := none
  condition_Name : Option PyVal := none
  status : Option PyVal := none
deriving DecidableEq, Repr

/-- One entry of the `Procedures` array. -/
structure ProcEntry where
  procedure_Date : Option PyVal := none
  provider : Option PyVal := none
  procedure_Name : Option PyVal := none
  procedure_Type : Option PyVal := none
deriving DecidableEq, Repr

/-- One entry of the `Allergies` array. -/
structure AllergyEntry where
  record_Date : Option PyVal := none
  provider : Option PyVal := none
  allergy : Option PyVal := none
deriving DecidableEq, Repr

/-- One entry of the `Immunizations` array. -/
structure ImmEntry where
  immunization_Date : Option PyVal := none
  provider : Option PyVal := none
  vaccine_Name : Option PyVal := none
  vaccine_Type : Option PyVal := none
deriving DecidableEq, Repr

/-- Parsed clinical-data document root. -/
structure ClinicalFile where
  conditions : Option (List CondEntry) := none
  procedures : Option (List ProcEntry) := none
  allergies : Option (List AllergyEntry) := none
  immunizations : Option (List ImmEntry) := none
deriving DecidableEq, Repr

/-- The numeric guard of `process_lab_results` (lines 201-207): the stripped
value string is nonempty and, with `.` and `-` removed, all digits. -/
def labNumericGuard (raw : PyVal) : Bool :=
  let valueStr := pyStripChars (pyStr raw).data
  !valueStr.isEmpty && allDigits (removeDotDash valueStr)

/-- Embedding of `process_lab_results` (lines 173-211). `value_numeric` is
set only when the guard passes and the subsequent `float()` call succeeds. -/
def process_lab_results (data : LabFile) (patientId importId sourceFile : String) : List HealthRecord :=
  match data.lab_Results with
  | none => []
  | some sessions =>
    (sessions.map (fun sess =>
      let testDate := parseDateVal sess.test_Date
      let prov := sess.provider.getD (PyVal.vStr "Unknown Provider")
      (sess.tests.getD []).map (fun test =>
        let valueStr := pyStripChars (pyStr (test.test_Value.getD (PyVal.vStr ""))).data
        let ok := !valueStr.isEmpty && allDigits (removeDotDash valueStr) && floatChars valueStr
        { patient_id := patientId
          import_id := importId
          record_category := "LAB"
          record_date := testDate
          provider := prov
          item_description := test.test_Name
          value_text := test.test_Value
          measurement_dimension := test.test_Unit
          reference_range := test.reference_Range
          flag := test.flag
          test_category := test.test_Category
          value_numeric := if ok then some (PyVal.vFloat (ratOfDec valueStr)) else none
          source_file := sourceFile }))).flatten

/-- Embedding of `process_medications` (lines 213-238). A missing `Status`
key defaults to `"PRESCRIBED"`; a present value (even null or `""`) is kept. -/
def process_medications (data : MedFile) (patientId importId sourceFile : String) : List HealthRecord :=
  match data.medications with
  | none => []
  | some meds =>
    meds.map (fun med =>
      { patient_id := patientId
        import_id := importId
        record_category := "MEDICATION"
        record_date := parseDateVal med.prescription_Date
        provider := med.provider.getD (PyVal.vStr "Unknown Provider")
        item_description := med.medication_Name
        dosage := med.dosage
        form := med.form
        for_condition := med.for_Condition
        frequency := med.frequency
        medication_status := some (med.status.getD (PyVal.vStr "PRESCRIBED"))
        source_file := sourceFile })

/-- Embedding of `process_vitals` (lines 240-263). Note the raw
`Vital_Value` is copied into `value_numeric` with no numeric check. -/
def process_vitals (data : VitalsFile) (patientId importId sourceFile : String) : List HealthRecord :=
  match data.vitals with
  | none => []
  | some vs =>
    vs.map (fun v =>
      { patient_id := patientId
        import_id := importId
        record_category := "VITAL"
        record_date := parseDateVal v.measurement_Date
        provider := v.provider.getD (PyVal.vStr "Unknown Provider")
        item_description := v.vital_Type
        value_numeric := v.vital_Value
        measurement_dimension := v.vital_Unit
        vital_category := v.vital_Type
        source_file := sourceFile })

/-- Embedding of `process_clinical_data` (lines 265-333): conditions, then
procedures, then allergies, then immunizations. -/
def process_clinical_data (data : ClinicalFile) (patientId importId sourceFile : String) : List HealthRecord :=
  ((data.conditions.getD []).map (fun c =>
    { patient_id := patientId
      import_id := importId
      record_category := "CONDITION"
      record_date := parseDateVal c.diagnosis_Date
      provider := c.provider.getD (PyVal.vStr "Unknown Provider")
      item_description := c.condition_Name
      condition_status := c.status
      source_file := sourceFile })) ++
  ((data.procedures.getD []).map (fun p =>
    { patient_id := patientId
      import_id := importId
      record_category := "PROCEDURE"
      record_date := parseDateVal p.procedure_Date
      provider := p.provider.getD (PyVal.vStr "Unknown Provider")
      item_description := p.procedure_Name
      procedure_category := p.procedure_Type
      source_file := sourceFile })) ++
  ((data.allergies.getD []).map (fun a =>
    { patient_id := patientId
      import_id := importId
      record_category := "ALLERGY"
      record_date := parseDateVal a.record_Date
      provider := a.provider.getD (PyVal.vStr "Unknown Provider")
      item_description := a.allergy
      allergy_category := some (PyVal.vStr "ALLERGY")
      source_file := sourceFile })) ++
  ((data.immunizations.getD []).map (fun im =>
    { patient_id := patientId
      import_id := importId
      record_category := "IMMUNIZATION"
      record_date := parseDateVal im.immunization_Date
      provider := im.provider.getD (PyVal.vStr "Unknown Provider")
      item_description := im.vaccine_Name
      vaccine_category := im.vaccine_Type
      source_file := sourceFile }))

/-- Display label of `calculate_import_statistics` (lines 399-409): three
named categories, everything else collapsed to `Clinical Data`. -/
def displayLabel (cat : String) : String :=
  if cat = "LAB" then "Lab Results"
  else if cat = "MEDICATION" then "Medications"
  else if cat = "VITAL" then "Vitals"
  else "Clinical Data"

/-- `defaultdict(int)` increment: bump the key's count, appending the key in
insertion order when it is new. -/
def bumpKey {α : Type} [DecidableEq α] (l : List (α × Nat)) (k : α) : List (α × Nat) :=
  match l with
  | [] => [(k, 1)]
  | (k', n) :: t => if k' = k then (k', n + 1) :: t else (k', n) :: bumpKey t k

/-- Sum of the counts of a counter dictionary. -/
def sumVals {α : Type} (l : List (α × Nat)) : Nat :=
  l.foldr (fun p a => p.2 + a) 0

/-- Python banker's rounding of a rational to an integer. -/
def roundHalfEven (q : ℚ) : ℤ :=
  let f := ⌊q⌋
  let r := q - f
  if r < 1/2 then f
  else if 1/2 < r then f + 1
  else if f % 2 = 0 then f else f + 1

/-- Python `round(q, 1)`. -/
def roundTo1 (q : ℚ) : ℚ := (roundHalfEven (q * 10) : ℚ) / 10

/-- The `round((count / total * 100) if total-list else 0, 1)` idiom. -/
def pctOf (count total : Nat) : ℚ :=
  if total = 0 then 0 else roundTo1 ((count : ℚ) / (total : ℚ) * 100)

/-- Stable descending insertion by count: an element goes before the first
strictly smaller count, so earlier-inserted keys stay first on ties, which is
exactly `sorted(items, key=lambda x: x[1], reverse=True)`. -/
def insertByCount (x : Nat × Nat) : List (Nat × Nat) → List (Nat × Nat)
  | [] => [x]
  | y :: t => if x.2 ≥ y.2 then x :: y :: t else y :: insertByCount x t

/-- Stable sort of the year histogram, descending by count. -/
def sortByCount (l : List (Nat × Nat)) : List (Nat × Nat) :=
  l.foldr insertByCount []

/-- Python `set(...)` built incrementally (only its size is observed). -/
def dedupVals (l : List PyVal) : List PyVal :=
  l.foldl (fun acc v => if acc.contains v then acc else acc ++ [v]) []

/-- One entry of the `data_quality` block. -/
structure QualityEntry where
  count : Nat
  total : Nat
  percentage : ℚ
deriving DecidableEq, Repr

/-- Result of `calculate_import_statistics`. -/
structure ImportStats where
  total_records : Nat
  records_by_category : List (String × Nat)
  timeline_coverage : List (Nat × Nat)
  lab_results_with_ranges : QualityEntry
  medications_with_status : QualityEntry
  records_with_dates : QualityEntry
  key_insights : List String
  source_files : List String
deriving DecidableEq, Repr

/-- The year-histogram accumulation of `calculate_import_statistics`
(lines 412-417): a `defaultdict(int)` keyed by the year of each dated
record, in first-encountered key order. -/
def timelineOf (records : List HealthRecord) : List (Nat × Nat) :=
  records.foldl (fun acc r =>
    match r.record_date with
    | some d => bumpKey acc d.year
    | none => acc) []

/-- The recent-medication filter (line 438): dated on or after 2024-01-01. -/
def medRecentPred (r : HealthRecord) : Bool :=
  match r.record_date with
  | some d => dateLeb ⟨2024, 1, 1⟩ d
  | none => false

/-- The truthy item-description selector of the unique-lab-test set
(line 448). -/
def labDescOf (r : HealthRecord) : Option PyVal :=
  match r.item_description with
  | some v => if truthy v then some v else none
  | none => none

/-- The optional most-recent-lab insight (lines 432-435). -/
def mostRecentLabInsight (labDates : List PyDate) : List String :=
  match pyMaxDate labDates with
  | some d => ["Most recent lab test: " ++ dateToString d]
  | none => []

/-- The `lab_dates` comprehension (line 432): dates of the lab records. -/
def specLabDates (records : List HealthRecord) : List PyDate :=
  (records.filter (fun r => r.record_category == "LAB")).filterMap (fun r => r.record_date)

/-- The unique-lab-test comprehension (line 448): truthy item descriptions
of the lab records. -/
def specLabDescriptions (records : List HealthRecord) : List PyVal :=
  (records.filter (fun r => r.record_category == "LAB")).filterMap labDescOf

/-- The four `key_insights` of `calculate_import_statistics`
(lines 428-449), in order: optional most recent lab date, recent-medication
count, optional top-two-years line, distinct-lab-test count. -/
def keyInsightsOf (records : List HealthRecord) : List String :=
  mostRecentLabInsight (specLabDates records) ++
  ["Recent medications: " ++ toString
    ((records.filter (fun r => r.record_category == "MEDICATION")).filter medRecentPred).length] ++
  (if (timelineOf records).isEmpty then []
   else ["Years with most complete data: " ++ String.intercalate ", "
     (((sortByCount (timelineOf records)).take 2).map (fun p => toString p.1))]) ++
  ["Total unique lab tests tracked: " ++
    toString (dedupVals (specLabDescriptions records)).length]

/-- Embedding of `calculate_import_statistics` (lines 395-474). -/
def calculate_import_statistics (records : List HealthRecord) (sourceFiles : List String) : ImportStats :=
  let recordsByCategory := records.foldl
    (fun acc r => bumpKey acc (displayLabel r.record_category)) ([] : List (String × Nat))
  let timelineCoverage := timelineOf records
  let totalRecords := records.length
  let labRecords := records.filter (fun r => r.record_category == "LAB")
  let medRecords := records.filter (fun r => r.record_category == "MEDICATION")
  let labWithRanges := (labRecords.filter (fun r => truthyOpt r.reference_range)).length
  let medWithStatus := (medRecords.filter (fun r => truthyOpt r.medication_status)).length
  let recordsWithDates := (records.filter (fun r => r.record_date.isSome)).length
  { total_records := totalRecords
    records_by_category := recordsByCategory
    timeline_coverage := timelineCoverage
    lab_results_with_ranges :=
      ⟨labWithRanges, labRecords.length, pctOf labWithRanges labRecords.length⟩
    medications_with_status :=
      ⟨medWithStatus, medRecords.length, pctOf medWithStatus medRecords.length⟩
    records_with_dates :=
      ⟨recordsWithDates, totalRecords, pctOf recordsWithDates totalRecords⟩
    key_insights := keyInsightsOf records
    source_files := sourceFiles }

/-- One row of the IMPORTS table. -/
structure ImportRow where
  import_id : String
  patient_id : String
  source_files : List String
  import_status : String
  records_by_category : Option (List (String × Nat)) := none
  import_statistics : Option ImportStats := none
  total_records : Option Nat := none
deriving DecidableEq, Repr

/-- Embedding of `create_import_record` (lines 147-171): the inserted row
carries status `IN_PROGRESS` and no statistics yet. -/
def create_import_record (importId patientId : String) (sourceFiles : List String) : ImportRow :=
  { import_id := importId
    patient_id := patientId
    source_files := sourceFiles
    import_status := "IN_PROGRESS" }

/-- Embedding of `update_import_record` (lines 476-502): one UPDATE that
attaches the category breakdown, the full statistics, the total count, and
sets the status to `COMPLETED`. -/
def update_import_record (row : ImportRow) (statistics : ImportStats) : ImportRow :=
  { row with
    records_by_category := some statistics.records_by_category
    import_statistics := some statistics
    total_records := some statistics.total_records
    import_status := "COMPLETED" }

/-- Glob match for the three `xxx_*.json` patterns: the name extends the
stem on the left and `.json` on the right without overlap (no `/` or leading
dot can occur inside these basenames' wildcard position in a way that
changes the outcome). -/
def matchesStarPat (stem suffix name : String) : Bool :=
  stem.data.isPrefixOf name.data && name.data.reverse.take suffix.data.length = suffix.data.reverse &&
  stem.data.length + suffix.data.length ≤ name.data.length

/-- Whether a basename matches one of the four fixed source patterns
(lines 529-534). -/
def matchesAnyPat (name : String) : Bool :=
  matchesStarPat "lab_results_" ".json" name ||
  matchesStarPat "vitals_" ".json" name ||
  matchesStarPat "medications_" ".json" name ||
  name == "clinical_data_consolidated.json"

/-- The directory scan (lines 536-539): one glob per pattern, results
concatenated in pattern order. -/
def globScan (files : List String) : List String :=
  files.filter (matchesStarPat "lab_results_" ".json") ++
  files.filter (matchesStarPat "vitals_" ".json") ++
  files.filter (matchesStarPat "medications_" ".json") ++
  files.filter (fun f => f == "clinical_data_consolidated.json")

/-- A write issued to the store during an import. -/
inductive StoreOp where
  | insertPatient : String → StoreOp
  | insertImport : ImportRow → StoreOp
  | insertRecords : List HealthRecord → StoreOp
  | updateImport : ImportRow → StoreOp
deriving DecidableEq, Repr

/-- Environment of one `snowflake_import_analyze_health_records_v2` call:
the filesystem content, the per-file pure processing results, and a boolean
oracle for each fallible external step. A `false` oracle models the step
raising; a raising store step issues no write. -/
structure ImportEnv where
  fileDirectory : String
  dirExists : Bool
  dirFiles : List String
  extractQualifies : String → Bool
  fileRecords : String → List HealthRecord
  connectOk : Bool
  insertPatientOk : Bool
  insertImportOk : Bool
  bulkInsertOk : Bool
  updateOk : Bool
  commitOk : Bool
  exnMsg : String
  patientId : String
  importId : String

/-- Structured result of the import tool (`success` flag and the error
message of the failure path, when any). -/
structure ImportResult where
  success : Bool
  error : Option String := none
deriving DecidableEq, Repr

/-- Embedding of the import tool `snowflake_import_analyze_health_records_v2`
(lines 504-642): directory check, glob scan, patient-info scan, connection,
patient insert, import insert (status `IN_PROGRESS`), per-file processing
with failures skipped, empty-batch check, bulk insert, statistics,
finalizing update (status `COMPLETED`), commit. Every exception is caught at
the boundary and reported as `success := false`; the second component is the
trace of store writes that were issued. -/
def importPipeline (env : ImportEnv) : ImportResult × List StoreOp :=
  if !env.dirExists then
    ({ success := false, error := some ("Directory not found: " ++ env.fileDirectory) }, [])
  else
    let sourceFiles := globScan env.dirFiles
    if sourceFiles.isEmpty then
      ({ success := false,
         error := some ("No health data JSON files found in directory: " ++ env.fileDirectory) }, [])
    else if !sourceFiles.any env.extractQualifies then
      ({ success := false,
         error := some "Could not extract patient information from header_fields in JSON files" }, [])
    else if !env.connectOk then
      ({ success := false, error := some ("Import failed: " ++ env.exnMsg) }, [])
    else if !env.insertPatientOk then
      ({ success := false, error := some ("Import failed: " ++ env.exnMsg) }, [])
    else
      let ops1 := [StoreOp.insertPatient env.patientId]
      if !env.insertImportOk then
        ({ success := false, error := some ("Import failed: " ++ env.exnMsg) }, ops1)
      else
        let irow := create_import_record env.importId env.patientId sourceFiles
        let ops2 := ops1 ++ [StoreOp.insertImport irow]
        let allRecords := (sourceFiles.map env.fileRecords).flatten
        if allRecords.isEmpty then
          ({ success := false,
             error := some "No valid health records found in the provided files" }, ops2)
        else if !env.bulkInsertOk then
          ({ success := false, error := some ("Import failed: " ++ env.exnMsg) }, ops2)
        else
          let ops3 := ops2 ++ [StoreOp.insertRecords allRecords]
          let statistics := calculate_import_statistics allRecords sourceFiles
          if !env.updateOk then
            ({ success := false, error := some ("Import failed: " ++ env.exnMsg) }, ops3)
          else
            let ops4 := ops3 ++ [StoreOp.updateImport (update_import_record irow statistics)]
            if !env.commitOk then
              ({ success := false, error := some ("Import failed: " ++ env.exnMsg) }, ops4)
            else
              ({ success := true }, ops4)

/-- Status of the IMPORTS row after replaying a trace of writes. -/
def finalImportStatus (ops : List StoreOp) : Option String :=
  ops.foldl (fun st op =>
    match op with
    | StoreOp.insertImport r => some r.import_status
    | StoreOp.updateImport r => some r.import_status
    | _ => st) none

/-- Whether a store write is the finalizing UPDATE. -/
def isUpdateOp : StoreOp → Bool
  | StoreOp.updateImport _ => true
  | _ => false

/-- Embedding of `clean_account_identifier` (lines 665-671): truncate at the
first `.` only when the identifier has no `.global` and the dot's index is
positive; then replace dots by dashes and upper-case. -/
def clean_account_identifier (acct : String) : String :=
  let acct1 :=
    if !hasSub ".global" acct then
      match firstIdx '.' acct.data with
      | some i => if 0 < i then String.mk (acct.data.take i) else acct
      | none => acct
    else acct
  upperStr (String.mk (acct1.data.map (fun c => if c = '.' then '-' else c)))

/-- Modelled from the spec: the Query Bridge normalization exactly as §4.6.2
words it — "if it does not contain the substring `.global`, truncate at the
first `.`; then replace remaining `.` with `-`; upper-case". The truncation
here is unconditional whenever a dot exists. -/
def specCleanAccount (acct : String) : String :=
  let acct1 :=
    if !hasSub ".global" acct then
      match firstIdx '.' acct.data with
      | some i => String.mk (acct.data.take i)
      | none => acct
    else acct
  upperStr (String.mk (acct1.data.map (fun c => if c = '.' then '-' else c)))

/-- The truncation step as the amended claim words it: a leading-dot
identifier (first `.` at index 0) is left untouched; otherwise the
identifier is cut at its first `.` using `takeWhile`. -/
def amendedTruncate (acct : String) : String :=
  if hasSub ".global" acct then acct
  else
    match acct.data with
    | [] => acct
    | c :: _ =>
      if c = '.' then acct
      else if acct.data.contains '.' then String.mk (acct.data.takeWhile (fun x => x ≠ '.'))
      else acct

/-- Replace dots by dashes then upper-case (steps 2-3 of the normalization). -/
def dotDashUpper (s : String) : String :=
  upperStr (String.mk (s.data.map (fun c => if c = '.' then '-' else c)))

/-- One result row of `execute_query`: column names paired with converted
scalar values. -/
abbrev ResultRow := List (String × PyVal)

/-- The metrics block of `calculate_health_metrics`. -/
structure QueryMetrics where
  row_count : Nat
  columns : List String
  has_date_data : Bool
  has_numeric_data : Bool
  data_category : String
  health_focus : String
deriving DecidableEq, Repr

/-- `calculate_health_metrics` returns a plain message for empty results. -/
inductive MetricsResult where
  | noData : MetricsResult
  | metrics : QueryMetrics → MetricsResult
deriving DecidableEq, Repr

/-- Embedding of `calculate_health_metrics` (lines 782-812). Note that the
date/numeric flags inspect only the first row of the results. -/
def calculate_health_metrics (query : String) (results : List ResultRow) : MetricsResult :=
  match results with
  | [] => MetricsResult.noData
  | r0 :: _ =>
    let cols := r0.map (fun kv => kv.1)
    let ql := lowerStr query
    let cat :=
      if hasSub "cholesterol" ql then ("lab_results", "cardiovascular")
      else if hasSub "medication" ql then ("medications", "treatment")
      else if hasSub "blood pressure" ql then ("vitals", "cardiovascular")
      else if hasSub "hba1c" ql || hasSub "glucose" ql then ("lab_results", "diabetes")
      else ("general", "general")
    MetricsResult.metrics
      { row_count := results.length
        columns := cols
        has_date_data := cols.any (fun k => hasSub "date" (lowerStr k))
        has_numeric_data := r0.any (fun kv => pyIsNum kv.2)
        data_category := cat.1
        health_focus := cat.2 }

/-- Modelled from the spec: "whether any value is numeric" read over the
whole result set rather than its first row. -/
def anyValueNumeric (results : List ResultRow) : Bool :=
  results.any (fun row => row.any (fun kv => pyIsNum kv.2))

/-- One content item of the translation-service response message. -/
structure ContentItem where
  type : Option String := none
  statement : Option String := none
  text : Option String := none
deriving DecidableEq, Repr

/-- The loosely-typed Cortex Analyst response envelope: the content items of
`response["message"]["content"]` when both keys exist, and the two fallback
top-level keys. -/
structure CortexResponse where
  messageContent : Option (List ContentItem) := none
  sql : Option String := none
  code : Option String := none
deriving DecidableEq, Repr

/-- The SQL-extraction loop (lines 835-840): the statement of the last
`sql`-typed content item (even when that statement is absent). -/
def extractSqlFromContent (items : List ContentItem) : Option String :=
  items.foldl (fun acc it => if it.type == some "sql" then it.statement else acc) none

/-- The interpretation accumulator (lines 839-840). -/
def buildInterpretation (items : List ContentItem) : String :=
  items.foldl (fun acc it =>
    if it.type == some "text" then acc ++ it.text.getD "" ++ "\n\n" else acc) ""

/-- Truthiness of the extracted statement (`if not sql`). -/
def truthyOptStr : Option String → Bool
  | none => false
  | some s => s ≠ ""

/-- Structured result of the query tool. -/
structure QueryToolResult where
  query_successful : Bool
  error : Option String := none
  sql : Option String := none
  interpretation : Option String := none
  results : List ResultRow := []
  result_count : Nat := 0
  data_metrics : Option MetricsResult := none
deriving DecidableEq, Repr

/-- Embedding of `execute_health_query_v2` (lines 814-885): extract the SQL
from the content items, fall back to the `sql` then `code` top-level keys,
fail with the extraction-error message when still falsy; otherwise execute
(`runQuery` models `execute_query`, whose failure is caught at the
boundary). The second component lists the statements actually executed. -/
def execute_health_query_v2 (query : String) (resp : CortexResponse)
    (runQuery : String → Except String (List ResultRow)) : QueryToolResult × List String :=
  let items := resp.messageContent.getD []
  let sql0 := extractSqlFromContent items
  let interp := buildInterpretation items
  let sql1 :=
    if !truthyOptStr sql0 then
      match resp.sql with
      | some v => some v
      | none =>
        match resp.code with
        | some v => some v
        | none => sql0
    else sql0
  match sql1 with
  | some s =>
    if s = "" then
      ({ query_successful := false,
         error := some "Could not extract SQL from Cortex Analyst response" }, [])
    else
      match runQuery s with
      | Except.ok rows =>
        ({ query_successful := true
           sql := some s
           interpretation := some (pyStrip interp)
           results := rows
           result_count := rows.length
           data_metrics := some (calculate_health_metrics query rows) }, [s])
      | Except.error e =>
        ({ query_successful := false, error := some e }, [s])
  | none =>
    ({ query_successful := false,
       error := some "Could not extract SQL from Cortex Analyst response" }, [])

/-- Count of medication records dated on or after 2024-01-01. -/
def specRecentMedsCount (records : List HealthRecord) : Nat :=
  (records.filter (fun r => r.record_category == "MEDICATION")).countP medRecentPred

/-- The per-year histogram of dated records, in first-encountered key
order (the defaultdict in `calculate_import_statistics`). -/
def specTimeline (records : List HealthRecord) : List (Nat × Nat) :=
  timelineOf records

/-- The claim-side last three insights: the always-present recent-medication
count, the top-two-years line when the histogram is non-empty, and the
always-present distinct-lab-test count. -/
def specInsightsTail (records : List HealthRecord) : List String :=
  ("Recent medications: " ++ toString (specRecentMedsCount records)) ::
  ((if (specTimeline records).isEmpty then []
    else ["Years with most complete data: " ++ String.intercalate ", "
      (((sortByCount (specTimeline records)).take 2).map (fun p => toString p.1))]) ++
  ["Total unique lab tests tracked: " ++ toString (specLabDescriptions records).toFinset.card])

/-- A vitals file whose single entry carries a non-numeric string value. -/
def cexVitalsFile : VitalsFile :=
  { vitals := some [{ vital_Type := some (PyVal.vStr "Blood Type"),
                      vital_Value := some (PyVal.vStr "abc") }] }

/-- A lab file whose single test carries the value string `"5.5"`. -/
def cexLabFile : LabFile :=
  { lab_Results := some [{ tests := some [{ test_Name := some (PyVal.vStr "Glucose"),
                                            test_Value := some (PyVal.vStr "5.5") }] }] }

/-- A medications file whose single entry has `Status` present but empty. -/
def cexMedFile : MedFile :=
  { medications := some [{ medication_Name := some (PyVal.vStr "Aspirin"),
                           status := some (PyVal.vStr "") }] }

/-- The canonical record produced by `process_lab_results` on `cexLabFile`. -/
def cexLabRecord : HealthRecord :=
  { patient_id := "p"
    import_id := "i"
    record_category := "LAB"
    item_description := some (PyVal.vStr "Glucose")
    value_text := some (PyVal.vStr "5.5")
    value_numeric := some (PyVal.vFloat (ratOfDec (pyStripChars (pyStr (PyVal.vStr "5.5")).data)))
    source_file := "f" }

/-- An import environment where every external step succeeds and the
directory holds one vitals source file producing one record. -/
def witEnvOk : ImportEnv :=
  { fileDirectory := "/data"
    dirExists := true
    dirFiles := ["vitals_2024.json"]
    extractQualifies := fun _ => true
    fileRecords := fun _ => [{ record_category := "VITAL" }]
    connectOk := true
    insertPatientOk := true
    insertImportOk := true
    bulkInsertOk := true
    updateOk := true
    commitOk := true
    exnMsg := "boom"
    patientId := "P1"
    importId := "I1" }

/-- An import environment whose directory exists but holds no matching file. -/
def witEnvNoFiles : ImportEnv :=
  { witEnvOk with dirFiles := ["notes.txt", "lab_results.json"] }

theorem sumVals_bumpKey {α : Type} [DecidableEq α] (l : List (α × Nat)) (k : α) :
    sumVals (bumpKey l k) = sumVals l + 1 := by
  induction l with
  | nil => simp [bumpKey, sumVals]
  | cons p t ih =>
    obtain ⟨k', n⟩ := p
    by_cases h : k' = k
    · simp [bumpKey, h, sumVals]
      omega
    · simp [bumpKey, h, sumVals] at *
      omega

theorem sumVals_foldl_bump {β : Type} (f : β → String) :
    ∀ (rs : List β) (acc : List (String × Nat)),
      sumVals (rs.foldl (fun a r => bumpKey a (f r)) acc) = sumVals acc + rs.length := by
  intro rs
  induction rs with
  | nil => intro acc; simp
  | cons h t ih =>
    intro acc
    simp only [List.foldl_cons, List.length_cons]
    rw [ih (bumpKey acc (f h)), sumVals_bumpKey]
    omega

theorem bumpKey_fst {α : Type} [DecidableEq α] (l : List (α × Nat)) (k : α) :
    ∀ p ∈ bumpKey l k, p.1 = k ∨ p.1 ∈ l.map Prod.fst := by
  induction l with
  | nil =>
    intro p hp
    simp only [bumpKey, List.mem_singleton] at hp
    left; rw [hp]
  | cons q t ih =>
    obtain ⟨k', n⟩ := q
    intro p hp
    simp only [bumpKey] at hp
    by_cases h : k' = k
    · rw [if_pos h] at hp
      rcases List.mem_cons.mp hp with hp | hp
      · left; rw [hp, ← h]
      · right
        rw [List.map_cons]
        exact List.mem_cons_of_mem _ (List.mem_map_of_mem Prod.fst hp)
    · rw [if_neg h] at hp
      rcases List.mem_cons.mp hp with hp | hp
      · right; rw [hp, List.map_cons]; exact List.mem_cons_self _ _
      · rcases ih p hp with h1 | h1
        · left; exact h1
        · right; rw [List.map_cons]; exact List.mem_cons_of_mem _ h1

theorem foldl_bump_fst {β : Type} (f : β → String) :
    ∀ (rs : List β) (acc : List (String × Nat)) (p : String × Nat),
      p ∈ rs.foldl (fun a r => bumpKey a (f r)) acc →
      p.1 ∈ acc.map Prod.fst ∨ ∃ r, r ∈ rs ∧ p.1 = f r := by
  intro rs
  induction rs with
  | nil =>
    intro acc p hp
    left
    simp only [List.foldl_nil] at hp
    exact List.mem_map_of_mem Prod.fst hp
  | cons h t ih =>
    intro acc p hp
    simp only [List.foldl_cons] at hp
    rcases ih (bumpKey acc (f h)) p hp with h1 | h1
    · simp only [List.mem_map] at h1
      obtain ⟨q, hq, hfst⟩ := h1
      rcases bumpKey_fst acc (f h) q hq with h2 | h2
      · right; exact ⟨h, by simp, by rw [← hfst, h2]⟩
      · left; rw [← hfst]; exact h2
    · obtain ⟨r, hr, he⟩ := h1
      right; exact ⟨r, by simp [hr], he⟩

theorem calc_stats_rbc (records : List HealthRecord) (files : List String) :
    (calculate_import_statistics records files).records_by_category =
      records.foldl (fun a r => bumpKey a (displayLabel r.record_category)) [] := rfl

theorem calc_stats_total (records : List HealthRecord) (files : List String) :
    (calculate_import_statistics records files).total_records = records.length := rfl

theorem displayLabel_mem (cat : String) :
    displayLabel cat = "Lab Results" ∨ displayLabel cat = "Medications" ∨
    displayLabel cat = "Vitals" ∨ displayLabel cat = "Clinical Data" := by
  unfold displayLabel
  split_ifs <;> simp

/-- C1: for every record list and source-file list, the aggregated category
counts sum to `total_records`, which is the length of the input list; every
category key is one of the four display labels; and the finalizing UPDATE
persists exactly that total (and that breakdown) on the ImportRun row. -/
theorem stats_total_consistent (records : List HealthRecord) (files : List String) (row : ImportRow) :
    sumVals (calculate_import_statistics records files).records_by_category =
      (calculate_import_statistics records files).total_records ∧
    (calculate_import_statistics records files).total_records = records.length ∧
    (∀ p ∈ (calculate_import_statistics records files).records_by_category,
      p.1 = "Lab Results" ∨ p.1 = "Medications" ∨ p.1 = "Vitals" ∨ p.1 = "Clinical Data") ∧
    (update_import_record row (calculate_import_statistics records files)).total_records =
      some records.length ∧
    (update_import_record row (calculate_import_statistics records files)).records_by_category =
      some (calculate_import_statistics records files).records_by_category := by
  refine ⟨?_, ?_, ?_, ?_, ?_⟩
  · rw [calc_stats_rbc, calc_stats_total,
      sumVals_foldl_bump (fun r => displayLabel r.record_category) records []]
    simp [sumVals]
  · exact calc_stats_total records files
  · intro p hp
    rw [calc_stats_rbc] at hp
    have h := foldl_bump_fst (fun r => displayLabel r.record_category) records [] p hp
    rcases h with h | ⟨r, _, he⟩
    · simp at h
    · rw [he]; exact displayLabel_mem r.record_category
  · rfl
  · rfl

/-- Witness for C1 at a concrete two-record run. -/
theorem stats_total_consistent_witness :
    sumVals (calculate_import_statistics
        [{ record_category := "LAB" }, { record_category := "ALLERGY" }] ["a.json"]).records_by_category = 2 ∧
    (update_import_record
        { import_id := "i", patient_id := "p", source_files := ["a.json"], import_status := "IN_PROGRESS" }
        (calculate_import_statistics
          [{ record_category := "LAB" }, { record_category := "ALLERGY" }] ["a.json"])).total_records = some 2 := by
  have h := stats_total_consistent
    [{ record_category := "LAB" }, { record_category := "ALLERGY" }] ["a.json"]
    { import_id := "i", patient_id := "p", source_files := ["a.json"], import_status := "IN_PROGRESS" }
  refine ⟨?_, ?_⟩
  · rw [h.1, h.2.1]
    rfl
  · rw [h.2.2.2.1]
    rfl

theorem digitChar_isDigit {n : Nat} (h : n ≤ 9) : (digitChar n).isDigit = true := by
  interval_cases n <;> decide

theorem digitVal_digitChar {n : Nat} (h : n ≤ 9) : digitVal (digitChar n) = n := by
  interval_cases n <;> decide

theorem dateToString_data (dt : PyDate) :
    (dateToString dt).data =
      [digitChar (dt.year / 1000 % 10), digitChar (dt.year / 100 % 10),
       digitChar (dt.year / 10 % 10), digitChar (dt.year % 10), '-',
       digitChar (dt.month / 10 % 10), digitChar (dt.month % 10), '-',
       digitChar (dt.day / 10 % 10), digitChar (dt.day % 10)] := rfl

theorem daysInMonth_le (y m : Nat) : daysInMonth y m ≤ 31 := by
  unfold daysInMonth
  split_ifs <;> omega

theorem ymd_roundtrip (y m d : Nat) (h : validDate y m d = true) :
    parseYMDChars (dateToString ⟨y, m, d⟩).data = some ⟨y, m, d⟩ := by
  have hb : (1 ≤ y ∧ y ≤ 9999) ∧ (1 ≤ m ∧ m ≤ 12) ∧ 1 ≤ d ∧ d ≤ daysInMonth y m := by
    simpa [validDate, Bool.and_eq_true, decide_eq_true_eq, and_assoc] using h
  obtain ⟨⟨h1, h2⟩, ⟨h3, h4⟩, h5, h6⟩ := hb
  have h7 : d ≤ 31 := le_trans h6 (daysInMonth_le y m)
  have e1 : (digitChar (y / 1000 % 10)).isDigit = true := digitChar_isDigit (by omega)
  have e2 : (digitChar (y / 100 % 10)).isDigit = true := digitChar_isDigit (by omega)
  have e3 : (digitChar (y / 10 % 10)).isDigit = true := digitChar_isDigit (by omega)
  have e4 : (digitChar (y % 10)).isDigit = true := digitChar_isDigit (by omega)
  have e5 : (digitChar (m / 10 % 10)).isDigit = true := digitChar_isDigit (by omega)
  have e6 : (digitChar (m % 10)).isDigit = true := digitChar_isDigit (by omega)
  have e7 : (digitChar (d / 10 % 10)).isDigit = true := digitChar_isDigit (by omega)
  have e8 : (digitChar (d % 10)).isDigit = true := digitChar_isDigit (by omega)
  have v1 : digitVal (digitChar (y / 1000 % 10)) = y / 1000 % 10 := digitVal_digitChar (by omega)
  have v2 : digitVal (digitChar (y / 100 % 10)) = y / 100 % 10 := digitVal_digitChar (by omega)
  have v3 : digitVal (digitChar (y / 10 % 10)) = y / 10 % 10 := digitVal_digitChar (by omega)
  have v4 : digitVal (digitChar (y % 10)) = y % 10 := digitVal_digitChar (by omega)
  have v5 : digitVal (digitChar (m / 10 % 10)) = m / 10 % 10 := digitVal_digitChar (by omega)
  have v6 : digitVal (digitChar (m % 10)) = m % 10 := digitVal_digitChar (by omega)
  have v7 : digitVal (digitChar (d / 10 % 10)) = d / 10 % 10 := digitVal_digitChar (by omega)
  have v8 : digitVal (digitChar (d % 10)) = d % 10 := digitVal_digitChar (by omega)
  rw [dateToString_data]
  simp only [parseYMDChars, e1, e2, e3, e4, e5, e6, e7, e8, v1, v2, v3, v4, v5, v6, v7, v8,
    Bool.and_true, Bool.true_and, if_true]
  have hy : ((y / 1000 % 10 * 10 + y / 100 % 10) * 10 + y / 10 % 10) * 10 + y % 10 = y := by omega
  have hm : m / 10 % 10 * 10 + m % 10 = m := by omega
  have hd : d / 10 % 10 * 10 + d % 10 = d := by omega
  rw [hy, hm, hd, h]
  rfl

theorem dateToString_ne_empty (dt : PyDate) : dateToString dt ≠ "" := by
  intro hcon
  have := congrArg String.data hcon
  rw [dateToString_data] at this
  simp at this

/-- C3: the Date Parser is total (it returns an optional date, never
raises) and ordered: absent or empty input yields `none`; a 10-character
string containing a hyphen is handed to the `%Y-%m-%d` parser; otherwise a
10-character string containing a slash is handed to the `%m/%d/%Y` parser;
every other string goes to the ISO-8601 parser after the `Z` replacement;
and every valid calendar date rendered as `YYYY-MM-DD` round-trips to
exactly that date. A parse failure in any branch yields `none`. -/
theorem parse_date_spec :
    parse_date none = none ∧
    parse_date (some "") = none ∧
    (∀ s : String, s ≠ "" → s.length = 10 → s.data.contains '-' = true →
      parse_date (some s) = parseYMDChars s.data) ∧
    (∀ s : String, s ≠ "" → s.length = 10 → s.data.contains '-' = false →
      s.data.contains '/' = true → parse_date (some s) = parseMDYChars s.data) ∧
    (∀ s : String, s ≠ "" →
      (s.length = 10 → s.data.contains '-' = false ∧ s.data.contains '/' = false) →
      parse_date (some s) = isoToDate (replaceZ s)) ∧
    (∀ y m d : Nat, validDate y m d = true →
      parse_date (some (dateToString ⟨y, m, d⟩)) = some ⟨y, m, d⟩) := by
  refine ⟨rfl, rfl, ?_, ?_, ?_, ?_⟩
  · intro s hne h10 hc
    have hm : '-' ∈ s.data := by simpa using hc
    simp [parse_date, hne, h10, hm]
  · intro s hne h10 hcm hcs
    have hm : '-' ∉ s.data := by simpa using hcm
    have hs : '/' ∈ s.data := by simpa using hcs
    simp [parse_date, hne, h10, hm, hs]
  · intro s hne hsep
    by_cases h10 : s.length = 10
    · obtain ⟨hcm, hcs⟩ := hsep h10
      have hm : '-' ∉ s.data := by simpa using hcm
      have hs : '/' ∉ s.data := by simpa using hcs
      simp [parse_date, hne, hm, hs]
    · simp [parse_date, hne, h10]
  · intro y m d h
    have hne := dateToString_ne_empty (⟨y, m, d⟩ : PyDate)
    have h10 : (dateToString (⟨y, m, d⟩ : PyDate)).length = 10 := by
      show (dateToString (⟨y, m, d⟩ : PyDate)).data.length = 10
      rw [dateToString_data]
      rfl
    have hm : '-' ∈ (dateToString (⟨y, m, d⟩ : PyDate)).data := by
      rw [dateToString_data]
      simp
    have hres := ymd_roundtrip y m d h
    simp [parse_date, hne, h10, hm, hres]

/-- Witness for C3 at concrete inputs: a leap-day round-trip through the
hyphen branch, and the branch equations at sample strings. -/
theorem parse_date_spec_witness :
    parse_date (some "2024-02-29") = some ⟨2024, 2, 29⟩ ∧
    parse_date (some "01/02/2024") = parseMDYChars "01/02/2024".data ∧
    parse_date (some "2024-06-01T12:30:00Z") = isoToDate (replaceZ "2024-06-01T12:30:00Z") := by
  obtain ⟨_, _, hymd, hmdy, hiso, hrt⟩ := parse_date_spec
  refine ⟨?_, ?_, ?_⟩
  · have := hrt 2024 2 29 (by decide)
    have hs : dateToString (⟨2024, 2, 29⟩ : PyDate) = "2024-02-29" := by decide
    rw [hs] at this
    exact this
  · exact hmdy "01/02/2024" (by decide) (by decide) (by decide) (by decide)
  · exact hiso "2024-06-01T12:30:00Z" (by decide) (by intro h; exact absurd h (by decide))

theorem process_lab_shape (ld : LabFile) (pid iid sf : String) (r : HealthRecord)
    (hr : r ∈ process_lab_results ld pid iid sf) :
    r.value_numeric =
      (if labNumericGuard (r.value_text.getD (PyVal.vStr "")) &&
          floatChars (pyStripChars (pyStr (r.value_text.getD (PyVal.vStr ""))).data) then
        some (PyVal.vFloat (ratOfDec (pyStripChars (pyStr (r.value_text.getD (PyVal.vStr ""))).data)))
      else none) := by
  cases hld : ld.lab_Results with
  | none => rw [process_lab_results, hld] at hr; simp at hr
  | some sessions =>
    rw [process_lab_results, hld] at hr
    simp only [List.mem_flatten, List.mem_map] at hr
    obtain ⟨l, ⟨sess, hsess, hl⟩, hrl⟩ := hr
    rw [← hl] at hrl
    simp only [List.mem_map] at hrl
    obtain ⟨test, htest, hre⟩ := hrl
    rw [← hre]
    rfl

/-- C2 counterexample: the vitals extractor populates `value_numeric` with
the raw `Vital_Value` even when that value is the non-numeric string
`"abc"`, which fails the claimed strip/remove/isdigit predicate; the claim
as stated over every category is therefore false at this input. -/
theorem vitals_numeric_counterexample :
    (process_vitals cexVitalsFile "p" "imp" "v.json").map (fun r => r.value_numeric) =
      [some (PyVal.vStr "abc")] ∧
    (process_vitals cexVitalsFile "p" "imp" "v.json").map (fun r => r.record_category) =
      ["VITAL"] ∧
    labNumericGuard (PyVal.vStr "abc") = false := by
  exact ⟨rfl, rfl, rfl⟩

/-- C2 (amended): only the lab extractor guards `value_numeric`: a lab
record's `value_numeric` is populated only when the raw `Test_Value` string,
stripped of whitespace and with `.` and `-` removed, is entirely decimal
digits, and otherwise only `value_text` is retained; the medications and
clinical extractors never populate `value_numeric`; the vitals extractor
copies the raw `Vital_Value` into `value_numeric` unconditionally. -/
theorem value_numeric_extractor_spec (ld : LabFile) (md : MedFile) (vd : VitalsFile)
    (cd : ClinicalFile) (pid iid sf : String) :
    (∀ r ∈ process_lab_results ld pid iid sf,
      r.value_numeric.isSome = true →
        labNumericGuard (r.value_text.getD (PyVal.vStr "")) = true) ∧
    (∀ r ∈ process_lab_results ld pid iid sf,
      labNumericGuard (r.value_text.getD (PyVal.vStr "")) = false → r.value_numeric = none) ∧
    (∀ r ∈ process_medications md pid iid sf, r.value_numeric = none) ∧
    (∀ r ∈ process_clinical_data cd pid iid sf, r.value_numeric = none) ∧
    (process_vitals vd pid iid sf).map (fun r => r.value_numeric) =
      (vd.vitals.getD []).map (fun v => v.vital_Value) := by
  refine ⟨?_, ?_, ?_, ?_, ?_⟩
  · intro r hr hsome
    have hs := process_lab_shape ld pid iid sf r hr
    by_cases hg : labNumericGuard (r.value_text.getD (PyVal.vStr "")) = true
    · exact hg
    · exfalso
      rw [Bool.not_eq_true] at hg
      rw [hs, hg] at hsome
      simp at hsome
  · intro r hr hguard
    have hs := process_lab_shape ld pid iid sf r hr
    rw [hs, hguard]
    simp
  · intro r hr
    cases hmd : md.medications with
    | none => rw [process_medications, hmd] at hr; simp at hr
    | some meds =>
      rw [process_medications, hmd] at hr
      simp only [List.mem_map] at hr
      obtain ⟨med, _, hre⟩ := hr
      rw [← hre]
  · intro r hr
    simp only [process_clinical_data, List.mem_append, List.mem_map] at hr
    rcases hr with ((⟨e, _, hre⟩ | ⟨e, _, hre⟩) | ⟨e, _, hre⟩) | ⟨e, _, hre⟩ <;> rw [← hre]
  · cases hvd : vd.vitals with
    | none => rw [process_vitals, hvd]; rfl
    | some vs =>
      rw [process_vitals, hvd]
      simp [List.map_map]

/-- Witness for C2 (amended): the single record of the concrete lab file
is in range of the first conjunct, and the vitals conjunct evaluates on the
concrete vitals file. -/
theorem value_numeric_extractor_spec_witness :
    labNumericGuard (PyVal.vStr "5.5") = true ∧
    (process_vitals cexVitalsFile "p" "i" "f").map (fun r => r.value_numeric) =
      (cexVitalsFile.vitals.getD []).map (fun v => v.vital_Value) := by
  have h := value_numeric_extractor_spec cexLabFile { } cexVitalsFile { } "p" "i" "f"
  refine ⟨?_, h.2.2.2.2⟩
  have hmem : cexLabRecord ∈ process_lab_results cexLabFile "p" "i" "f" := by
    have he : process_lab_results cexLabFile "p" "i" "f" = [cexLabRecord] := rfl
    rw [he]
    exact List.mem_singleton_self _
  have hr := h.1 cexLabRecord hmem rfl
  simpa using hr

theorem firstIdx_none_not_mem (c : Char) : ∀ l : List Char, firstIdx c l = none → c ∉ l := by
  intro l
  induction l with
  | nil => intro _; simp
  | cons x t ih =>
    intro h
    simp only [firstIdx] at h
    by_cases hx : x = c
    · rw [if_pos hx] at h; simp at h
    · rw [if_neg hx] at h
      have ht : firstIdx c t = none := by
        cases hft : firstIdx c t with
        | none => rfl
        | some j => rw [hft] at h; simp at h
      intro hm
      rcases List.mem_cons.mp hm with hm | hm
      · exact hx hm.symm
      · exact ih ht hm

theorem firstIdx_cons_zero (c x : Char) (t : List Char) (h : firstIdx c (x :: t) = some 0) :
    x = c := by
  by_cases hx : x = c
  · exact hx
  · simp only [firstIdx, if_neg hx] at h
    cases ht : firstIdx c t with
    | none => rw [ht] at h; simp at h
    | some j => rw [ht] at h; simp at h

theorem firstIdx_cons_succ (c x : Char) (t : List Char) (j : Nat)
    (h : firstIdx c (x :: t) = some (j + 1)) : x ≠ c ∧ firstIdx c t = some j := by
  by_cases hx : x = c
  · simp [firstIdx, hx] at h
  · refine ⟨hx, ?_⟩
    simp only [firstIdx, if_neg hx] at h
    cases ht : firstIdx c t with
    | none => rw [ht] at h; simp at h
    | some i =>
      rw [ht] at h
      simp only [Option.map_some', Option.some.injEq] at h
      rw [show i = j by omega]

theorem firstIdx_some_mem (c : Char) : ∀ (l : List Char) (i : Nat), firstIdx c l = some i → c ∈ l := by
  intro l
  induction l with
  | nil => intro i h; simp [firstIdx] at h
  | cons x t ih =>
    intro i h
    by_cases hx : x = c
    · rw [hx]; exact List.mem_cons_self _ _
    · simp only [firstIdx, if_neg hx] at h
      cases ht : firstIdx c t with
      | none => rw [ht] at h; simp at h
      | some j => exact List.mem_cons_of_mem x (ih j ht)

theorem firstIdx_take (c : Char) : ∀ (l : List Char) (i : Nat), firstIdx c l = some i →
    l.take i = l.takeWhile (fun x => x ≠ c) := by
  intro l
  induction l with
  | nil => intro i h; simp [firstIdx] at h
  | cons x t ih =>
    intro i h
    cases i with
    | zero =>
      have hx := firstIdx_cons_zero c x t h
      simp [List.takeWhile_cons, hx]
    | succ j =>
      obtain ⟨hx, ht⟩ := firstIdx_cons_succ c x t j h
      simp only [List.take_succ_cons, List.takeWhile_cons]
      rw [if_pos (by simpa using hx), ih j ht]

theorem amendedTruncate_eq (s : String) :
    (if !hasSub ".global" s then
      match firstIdx '.' s.data with
      | some i => if 0 < i then String.mk (s.data.take i) else s
      | none => s
    else s) = amendedTruncate s := by
  by_cases hg : hasSub ".global" s = true
  · simp [amendedTruncate, hg]
  · rw [Bool.not_eq_true] at hg
    rw [hg]
    simp only [Bool.not_false, if_true]
    unfold amendedTruncate
    rw [hg]
    simp only [Bool.false_eq_true, if_false]
    cases hf : firstIdx '.' s.data with
    | none =>
      have hnm := firstIdx_none_not_mem '.' s.data hf
      cases hd : s.data with
      | nil => rfl
      | cons x t =>
        rw [hd] at hnm
        have hx : ¬ x = '.' := by
          intro hcon
          exact hnm (by rw [hcon]; exact List.mem_cons_self _ _)
        simp only [hx, if_false, List.contains_cons]
        simp [hx]
        rw [if_neg (by simpa using hnm)]
    | some i =>
      cases i with
      | zero =>
        cases hd : s.data with
        | nil => rw [hd] at hf; simp [firstIdx] at hf
        | cons x t =>
          rw [hd] at hf
          have hx := firstIdx_cons_zero '.' x t hf
          simp [hx]
      | succ j =>
        have hmem := firstIdx_some_mem '.' s.data (j + 1) hf
        have htw := firstIdx_take '.' s.data (j + 1) hf
        cases hd : s.data with
        | nil => rw [hd] at hf; simp [firstIdx] at hf
        | cons x t =>
          rw [hd] at hf hmem htw
          have hx : x ≠ '.' := (firstIdx_cons_succ '.' x t j hf).1
          simp [hx, htw]
          rw [if_pos (by simpa using hmem)]

/-- C8 counterexample: for the account identifier `".x"` (which does not
contain `.global` and whose first dot is at index 0) the code does not
truncate and returns `"-X"`, while the claimed normalization truncates at
the first dot and would return `""`. -/
theorem clean_account_counterexample :
    clean_account_identifier ".x" = "-X" ∧
    specCleanAccount ".x" = "" ∧
    clean_account_identifier ".x" ≠ specCleanAccount ".x" := by
  refine ⟨by decide, by decide, by decide⟩

/-- C8 (amended): the normalization truncates at the first `.` only when
the identifier does not contain `.global` and that dot occurs at a positive
index (a leading-dot identifier is not truncated); then every remaining dot
becomes a dash and the result is upper-cased. -/
theorem clean_account_amended_spec (s : String) :
    clean_account_identifier s = dotDashUpper (amendedTruncate s) := by
  simp only [clean_account_identifier, dotDashUpper]
  rw [amendedTruncate_eq]

/-- Witness for C8 (amended) at a concrete dotted identifier. -/
theorem clean_account_amended_spec_witness :
    clean_account_identifier "myorg.us-east-1" = dotDashUpper (amendedTruncate "myorg.us-east-1") ∧
    clean_account_identifier "myorg.us-east-1" = "MYORG" := by
  exact ⟨clean_account_amended_spec "myorg.us-east-1", by decide⟩

/-- C9 counterexample: with a first row holding only a string and a second
row holding an int, some value in the results is numeric yet the code
reports `has_numeric_data = false`, because only the first row is
inspected; the claimed biconditional over the whole result list is false
at this input. -/
theorem metrics_numeric_counterexample :
    calculate_health_metrics "q" [[("a", PyVal.vStr "x")], [("a", PyVal.vInt 5)]] =
      MetricsResult.metrics
        { row_count := 2, columns := ["a"], has_date_data := false,
          has_numeric_data := false, data_category := "general", health_focus := "general" } ∧
    anyValueNumeric [[("a", PyVal.vStr "x")], [("a", PyVal.vInt 5)]] = true := by
  exact ⟨by decide, by decide⟩

/-- C9 (amended): for every non-empty result list the metrics carry the row
count and the first row's column names; `has_date_data` is true iff some
column name of the first row contains "date" case-insensitively; and
`has_numeric_data` is true iff some value of the first row (not of the
whole result set) is an int or float, booleans counting as ints as in
Python. -/
theorem health_metrics_amended_spec (query : String) (r0 : ResultRow) (rest : List ResultRow) :
    ∃ m : QueryMetrics,
      calculate_health_metrics query (r0 :: rest) = MetricsResult.metrics m ∧
      m.row_count = (r0 :: rest).length ∧
      m.columns = r0.map (fun kv => kv.1) ∧
      (m.has_date_data = true ↔ ∃ k ∈ r0.map (fun kv => kv.1), hasSub "date" (lowerStr k) = true) ∧
      (m.has_numeric_data = true ↔ ∃ kv ∈ r0, pyIsNum kv.2 = true) := by
  refine ⟨_, rfl, rfl, rfl, ?_, ?_⟩
  · show (List.any _ _ = true) ↔ _
    rw [List.any_eq_true]
  · show (List.any _ _ = true) ↔ _
    rw [List.any_eq_true]

/-- Witness for C9 (amended) at a concrete one-row result. -/
theorem health_metrics_amended_spec_witness :
    ∃ m : QueryMetrics,
      calculate_health_metrics "q" [[("total_cholesterol", PyVal.vInt 190)]] =
        MetricsResult.metrics m ∧ m.has_numeric_data = true := by
  obtain ⟨m, he, _, _, _, hiff⟩ :=
    health_metrics_amended_spec "q" [("total_cholesterol", PyVal.vInt 190)] []
  exact ⟨m, he, hiff.mpr ⟨("total_cholesterol", PyVal.vInt 190), by simp, rfl⟩⟩

theorem process_med_shape (md : MedFile) (pid iid sf : String) (r : HealthRecord)
    (hr : r ∈ process_medications md pid iid sf) :
    r.record_category = "MEDICATION" ∧
    ∃ e ∈ md.medications.getD [],
      r.medication_status = some (e.status.getD (PyVal.vStr "PRESCRIBED")) := by
  cases hmd : md.medications with
  | none => rw [process_medications, hmd] at hr; simp at hr
  | some meds =>
    rw [process_medications, hmd] at hr
    simp only [List.mem_map] at hr
    obtain ⟨e, he, hre⟩ := hr
    refine ⟨by rw [← hre], e, by simpa using he, by rw [← hre]⟩

theorem calc_stats_med (rs : List HealthRecord) (files : List String) :
    (calculate_import_statistics rs files).medications_with_status =
      ⟨((rs.filter (fun r => r.record_category == "MEDICATION")).filter
          (fun r => truthyOpt r.medication_status)).length,
        (rs.filter (fun r => r.record_category == "MEDICATION")).length,
        pctOf
          ((rs.filter (fun r => r.record_category == "MEDICATION")).filter
            (fun r => truthyOpt r.medication_status)).length
          (rs.filter (fun r => r.record_category == "MEDICATION")).length⟩ := rfl

theorem pctOf_self (n : Nat) (h : n ≠ 0) : pctOf n n = 100 := by
  unfold pctOf
  rw [if_neg h]
  have hn : (n : ℚ) ≠ 0 := Nat.cast_ne_zero.mpr h
  rw [div_self hn, one_mul]
  have h1 : ((100 : ℚ) * 10) = ((1000 : ℤ) : ℚ) := by norm_num
  have h2 : roundHalfEven (((1000 : ℤ) : ℚ)) = 1000 := by
    unfold roundHalfEven
    rw [Int.floor_intCast]
    norm_num
  unfold roundTo1
  rw [h1, h2]
  norm_num

/-- C10 counterexample: a medication entry whose `Status` key is present
but holds the empty string produces a record whose status is set yet falsy,
so for an import made of that single extractor record the aggregated
`medications_with_status` is count 0 of total 1 with percentage 0.0 rather
than the claimed 100.0. -/
theorem med_status_counterexample :
    (process_medications cexMedFile "p" "i" "f").map (fun r => r.medication_status) =
      [some (PyVal.vStr "")] ∧
    (calculate_import_statistics (process_medications cexMedFile "p" "i" "f")
        ["f"]).medications_with_status = ⟨0, 1, 0⟩ := by
  constructor
  · rfl
  · rw [calc_stats_med]
    have h1 : ((process_medications cexMedFile "p" "i" "f").filter
        (fun r => r.record_category == "MEDICATION")) =
        process_medications cexMedFile "p" "i" "f" := by decide
    have h2 : ((process_medications cexMedFile "p" "i" "f").filter
        (fun r => truthyOpt r.medication_status)) = [] := by decide
    rw [h1, h2]
    have : pctOf 0 1 = 0 := by
      unfold pctOf roundTo1 roundHalfEven
      norm_num
    simp only [List.length_nil,
      show (process_medications cexMedFile "p" "i" "f").length = 1 from rfl]
    rw [this]

/-- C10 (amended): every record of the medications extractor has its
medication-status key set, a missing `Status` defaulting to `"PRESCRIBED"`;
the aggregate counts records whose status value is truthy, so whenever every
medication entry's `Status` is either absent or truthy (non-null, non-empty)
the `medications_with_status` count equals its denominator and the
percentage is 100.0 as soon as at least one medication record exists. -/
theorem med_status_amended_spec (md : MedFile) (pid iid sf : String)
    (others : List HealthRecord) (files : List String)
    (hothers : ∀ r ∈ others, r.record_category ≠ "MEDICATION")
    (hst : ∀ e ∈ md.medications.getD [], e.status = none ∨ truthyOpt e.status = true) :
    (∀ r ∈ process_medications md pid iid sf, r.medication_status.isSome = true) ∧
    (calculate_import_statistics (others ++ process_medications md pid iid sf)
        files).medications_with_status.count =
      (calculate_import_statistics (others ++ process_medications md pid iid sf)
        files).medications_with_status.total ∧
    (process_medications md pid iid sf ≠ [] →
      (calculate_import_statistics (others ++ process_medications md pid iid sf)
        files).medications_with_status.percentage = 100) := by
  have hmedcat : ∀ r ∈ process_medications md pid iid sf,
      (r.record_category == "MEDICATION") = true := by
    intro r hr
    have := (process_med_shape md pid iid sf r hr).1
    simp [this]
  have htruthy : ∀ r ∈ process_medications md pid iid sf,
      truthyOpt r.medication_status = true := by
    intro r hr
    obtain ⟨-, e, he, hstat⟩ := process_med_shape md pid iid sf r hr
    rw [hstat]
    rcases hst e he with hnone | htr
    · rw [hnone]; rfl
    · cases hse : e.status with
      | none => rw [hse] at htr; simp [truthyOpt] at htr
      | some v =>
        rw [hse] at htr
        simp only [hse, Option.getD_some]
        simpa [truthyOpt] using htr
  have hfilter : ((others ++ process_medications md pid iid sf).filter
      (fun r => r.record_category == "MEDICATION")) = process_medications md pid iid sf := by
    rw [List.filter_append]
    have ho : others.filter (fun r => r.record_category == "MEDICATION") = [] := by
      rw [List.filter_eq_nil_iff]
      intro r hr
      simp [hothers r hr]
    have hm : (process_medications md pid iid sf).filter
        (fun r => r.record_category == "MEDICATION") = process_medications md pid iid sf :=
      List.filter_eq_self.mpr hmedcat
    rw [ho, hm, List.nil_append]
  have hfull : ((process_medications md pid iid sf).filter
      (fun r => truthyOpt r.medication_status)) = process_medications md pid iid sf :=
    List.filter_eq_self.mpr htruthy
  refine ⟨?_, ?_, ?_⟩
  · intro r hr
    obtain ⟨-, e, he, hstat⟩ := process_med_shape md pid iid sf r hr
    rw [hstat]
    rfl
  · rw [calc_stats_med, hfilter, hfull]
  · intro hne
    rw [calc_stats_med, hfilter, hfull]
    exact pctOf_self _ (Nat.pos_iff_ne_zero.mp (List.length_pos.mpr hne))

/-- Witness for C10 (amended): one medication with an explicit truthy
status, aggregated alongside one lab record. -/
theorem med_status_amended_spec_witness :
    (calculate_import_statistics
        ([{ record_category := "LAB" }] ++
          process_medications
            { medications := some [{ medication_Name := some (PyVal.vStr "Aspirin") }] } "p" "i" "f")
        ["f"]).medications_with_status.percentage = 100 := by
  have h := med_status_amended_spec
    { medications := some [{ medication_Name := some (PyVal.vStr "Aspirin") }] } "p" "i" "f"
    [{ record_category := "LAB" }] ["f"]
    (by intro r hr; simp at hr; rw [hr]; decide)
    (by intro e he; simp at he; rw [he]; left; rfl)
  exact h.2.2 (by decide)

theorem foldl_sql_skip : ∀ (items : List ContentItem) (acc : Option String),
    (∀ it ∈ items, ¬ it.type = some "sql") →
    items.foldl (fun acc it => if it.type == some "sql" then it.statement else acc) acc = acc := by
  intro items
  induction items with
  | nil => intro acc _; rfl
  | cons h t ih =>
    intro acc hall
    simp only [List.foldl_cons]
    have hh : (h.type == some "sql") = false := by
      simp only [beq_eq_false_iff_ne, ne_eq]
      exact hall h (List.mem_cons_self _ _)
    rw [if_neg (by simp [hh])]
    exact ih acc (fun it hit => hall it (List.mem_cons_of_mem h hit))

theorem extractSql_none (items : List ContentItem)
    (h : ∀ it ∈ items, ¬ it.type = some "sql") : extractSqlFromContent items = none :=
  foldl_sql_skip items none h

/-- C6: when the response envelope has no `sql`-typed content item and
neither `sql` nor `code` top-level key, the query tool returns the
structured extraction-error result with `query_successful = false` and no
statement is ever executed against the store. -/
theorem extraction_error_no_execution (query : String) (resp : CortexResponse)
    (runQuery : String → Except String (List ResultRow))
    (hitems : ∀ it ∈ resp.messageContent.getD [], ¬ it.type = some "sql")
    (hsql : resp.sql = none) (hcode : resp.code = none) :
    execute_health_query_v2 query resp runQuery =
      ({ query_successful := false,
         error := some "Could not extract SQL from Cortex Analyst response" }, []) := by
  have h0 : extractSqlFromContent (resp.messageContent.getD []) = none :=
    extractSql_none _ hitems
  simp only [execute_health_query_v2]
  rw [h0, hsql, hcode]
  simp [truthyOptStr]

/-- Witness for C6: an empty response envelope with a store stub. -/
theorem extraction_error_no_execution_witness :
    execute_health_query_v2 "how is my cholesterol" { } (fun _ => Except.ok []) =
      ({ query_successful := false,
         error := some "Could not extract SQL from Cortex Analyst response" }, []) := by
  exact extraction_error_no_execution "how is my cholesterol" { } (fun _ => Except.ok [])
    (by intro it hit; simp at hit) rfl rfl

theorem globScan_nil (files : List String) (h : ∀ f ∈ files, matchesAnyPat f = false) :
    globScan files = [] := by
  have hparts : ∀ f ∈ files,
      matchesStarPat "lab_results_" ".json" f = false ∧
      matchesStarPat "vitals_" ".json" f = false ∧
      matchesStarPat "medications_" ".json" f = false ∧
      (f == "clinical_data_consolidated.json") = false := by
    intro f hf
    have hm := h f hf
    simp only [matchesAnyPat, Bool.or_eq_false_iff] at hm
    exact ⟨hm.1.1.1, hm.1.1.2, hm.1.2, hm.2⟩
  unfold globScan
  rw [List.filter_eq_nil_iff.mpr (fun f hf => by simp [(hparts f hf).1]),
    List.filter_eq_nil_iff.mpr (fun f hf => by simp [(hparts f hf).2.1]),
    List.filter_eq_nil_iff.mpr (fun f hf => by simp [(hparts f hf).2.2.1]),
    List.filter_eq_nil_iff.mpr (fun f hf => by simp [(hparts f hf).2.2.2])]
  rfl

/-- C5: when the directory exists but none of its files matches any of the
four fixed glob patterns, the import tool returns `success = false` with
the no-source-files error message and issues no store write at all. -/
theorem no_source_files_no_writes (env : ImportEnv)
    (hdir : env.dirExists = true)
    (hnone : ∀ f ∈ env.dirFiles, matchesAnyPat f = false) :
    importPipeline env =
      ({ success := false,
         error := some ("No health data JSON files found in directory: " ++
           env.fileDirectory) }, []) := by
  have hg : globScan env.dirFiles = [] := globScan_nil env.dirFiles hnone
  simp [importPipeline, hdir, hg]

/-- Witness for C5: a directory with two non-matching file names. -/
theorem no_source_files_no_writes_witness :
    importPipeline witEnvNoFiles =
      ({ success := false,
         error := some ("No health data JSON files found in directory: " ++
           witEnvNoFiles.fileDirectory) }, []) := by
  exact no_source_files_no_writes witEnvNoFiles rfl (by decide)

theorem importPipeline_trace (env : ImportEnv) :
    (importPipeline env).2 = [] ∨
    (importPipeline env).2 = [StoreOp.insertPatient env.patientId] ∨
    (importPipeline env).2 = [StoreOp.insertPatient env.patientId,
      StoreOp.insertImport
        (create_import_record env.importId env.patientId (globScan env.dirFiles))] ∨
    (∃ rs, (importPipeline env).2 = [StoreOp.insertPatient env.patientId,
      StoreOp.insertImport
        (create_import_record env.importId env.patientId (globScan env.dirFiles)),
      StoreOp.insertRecords rs]) ∨
    (∃ rs, (importPipeline env).2 = [StoreOp.insertPatient env.patientId,
      StoreOp.insertImport
        (create_import_record env.importId env.patientId (globScan env.dirFiles)),
      StoreOp.insertRecords rs,
      StoreOp.updateImport (update_import_record
        (create_import_record env.importId env.patientId (globScan env.dirFiles))
        (calculate_import_statistics rs (globScan env.dirFiles)))]) := by
  by_cases h1 : env.dirExists = true
  · by_cases h2 : (globScan env.dirFiles).isEmpty = true
    · left; simp [importPipeline, h1, h2]
    · by_cases h3 : (globScan env.dirFiles).any env.extractQualifies = true
      · by_cases h4 : env.connectOk = true
        · by_cases h5 : env.insertPatientOk = true
          · by_cases h6 : env.insertImportOk = true
            · by_cases h7 : (((globScan env.dirFiles).map env.fileRecords).flatten).isEmpty = true
              · right; right; left
                simp [importPipeline, h1, h2, h3, h4, h5, h6, h7]
              · by_cases h8 : env.bulkInsertOk = true
                · by_cases h9 : env.updateOk = true
                  · right; right; right; right
                    refine ⟨((globScan env.dirFiles).map env.fileRecords).flatten, ?_⟩
                    by_cases h10 : env.commitOk = true
                    · simp [importPipeline, h1, h2, h3, h4, h5, h6, h7, h8, h9, h10]
                    · simp [importPipeline, h1, h2, h3, h4, h5, h6, h7, h8, h9, h10]
                  · right; right; right; left
                    refine ⟨((globScan env.dirFiles).map env.fileRecords).flatten, ?_⟩
                    simp [importPipeline, h1, h2, h3, h4, h5, h6, h7, h8, h9]
                · right; right; left
                  simp [importPipeline, h1, h2, h3, h4, h5, h6, h7, h8]
            · right; left
              simp [importPipeline, h1, h2, h3, h4, h5, h6]
          · left; simp [importPipeline, h1, h2, h3, h4, h5]
        · left; simp [importPipeline, h1, h2, h3, h4]
      · left; simp [importPipeline, h1, h2, h3]
  · left; simp [importPipeline, h1]

/-- C4: the ImportRun row is inserted with status `IN_PROGRESS`; the only
other status ever written is the single finalizing UPDATE to `COMPLETED`
(carrying statistics, breakdown and total), which occurs only in a trace
where the health records were inserted before it; there is at most one
update, no `FAILED` is ever written, and in every run that fails before
finalization the row (when created at all) is left at `IN_PROGRESS`. -/
theorem import_status_lifecycle (env : ImportEnv) :
    (create_import_record env.importId env.patientId (globScan env.dirFiles)).import_status =
      "IN_PROGRESS" ∧
    (∀ (row : ImportRow) (st : ImportStats),
      (update_import_record row st).import_status = "COMPLETED" ∧
      (update_import_record row st).total_records = some st.total_records ∧
      (update_import_record row st).import_statistics = some st ∧
      (update_import_record row st).records_by_category = some st.records_by_category) ∧
    (∀ r : ImportRow, StoreOp.insertImport r ∈ (importPipeline env).2 →
      r.import_status = "IN_PROGRESS") ∧
    (∀ r : ImportRow, StoreOp.updateImport r ∈ (importPipeline env).2 →
      r.import_status = "COMPLETED") ∧
    (importPipeline env).2.countP isUpdateOp ≤ 1 ∧
    ((∀ r : ImportRow, StoreOp.updateImport r ∉ (importPipeline env).2) ∨
      ∃ p r1 rs st, (importPipeline env).2 =
        [StoreOp.insertPatient p, StoreOp.insertImport r1, StoreOp.insertRecords rs,
         StoreOp.updateImport (update_import_record r1 st)]) ∧
    ((∀ r : ImportRow, StoreOp.updateImport r ∉ (importPipeline env).2) →
      ∀ r : ImportRow, StoreOp.insertImport r ∈ (importPipeline env).2 →
        finalImportStatus (importPipeline env).2 = some "IN_PROGRESS") := by
  rcases importPipeline_trace env with h | h | h | ⟨rs, h⟩ | ⟨rs, h⟩ <;> rw [h]
  · exact ⟨rfl, fun row st => ⟨rfl, rfl, rfl, rfl⟩,
      by intro r hr; simp at hr,
      by intro r hr; simp at hr,
      by simp,
      Or.inl (by intro r; simp),
      by intro _ r hr; simp at hr⟩
  · exact ⟨rfl, fun row st => ⟨rfl, rfl, rfl, rfl⟩,
      by intro r hr; simp at hr,
      by intro r hr; simp at hr,
      by simp [List.countP_cons, isUpdateOp],
      Or.inl (by intro r; simp),
      by intro _ r hr; simp at hr⟩
  · refine ⟨rfl, fun row st => ⟨rfl, rfl, rfl, rfl⟩, ?_, ?_, ?_, ?_, ?_⟩
    · intro r hr
      simp at hr
      rw [hr]
      rfl
    · intro r hr
      simp at hr
    · simp [List.countP_cons, isUpdateOp]
    · exact Or.inl (by intro r; simp)
    · intro _ r _
      rfl
  · refine ⟨rfl, fun row st => ⟨rfl, rfl, rfl, rfl⟩, ?_, ?_, ?_, ?_, ?_⟩
    · intro r hr
      simp at hr
      rw [hr]
      rfl
    · intro r hr
      simp at hr
    · simp [List.countP_cons, isUpdateOp]
    · exact Or.inl (by intro r; simp)
    · intro _ r _
      rfl
  · refine ⟨rfl, fun row st => ⟨rfl, rfl, rfl, rfl⟩, ?_, ?_, ?_, ?_, ?_⟩
    · intro r hr
      simp at hr
      rw [hr]
      rfl
    · intro r hr
      simp at hr
      rw [hr]
      rfl
    · simp [List.countP_cons, isUpdateOp]
    · exact Or.inr ⟨env.patientId, _, rs, _, rfl⟩
    · intro hnone r _
      exfalso
      exact hnone
        (update_import_record (create_import_record env.importId env.patientId (globScan env.dirFiles))
          (calculate_import_statistics rs (globScan env.dirFiles)))
        (by simp)

/-- Witness for C4: the all-success environment yields the full
four-write trace, whose update row is `COMPLETED`. -/
theorem import_status_lifecycle_witness :
    (∀ r : ImportRow, StoreOp.insertImport r ∈ (importPipeline witEnvOk).2 →
      r.import_status = "IN_PROGRESS") ∧
    (importPipeline witEnvOk).2.countP isUpdateOp ≤ 1 := by
  have h := import_status_lifecycle witEnvOk
  exact ⟨h.2.2.1, h.2.2.2.2.1⟩

theorem dateLeb_refl (a : PyDate) : dateLeb a a = true := by
  simp [dateLeb]

theorem dateLtb_le (a b : PyDate) (h : dateLtb a b = true) : dateLeb a b = true := by
  simp only [dateLtb, decide_eq_true_eq] at h
  simp only [dateLeb, decide_eq_true_eq]
  omega

theorem not_dateLtb_ge (a b : PyDate) (h : dateLtb a b = false) : dateLeb b a = true := by
  simp only [dateLtb, decide_eq_false_iff_not] at h
  simp only [dateLeb, decide_eq_true_eq]
  omega

theorem dateLeb_trans (a b c : PyDate) (h1 : dateLeb a b = true) (h2 : dateLeb b c = true) :
    dateLeb a c = true := by
  simp only [dateLeb, decide_eq_true_eq] at h1 h2 ⊢
  omega

theorem pyMax_fold_spec : ∀ (t : List PyDate) (h : PyDate),
    (t.foldl (fun m x => if dateLtb m x then x else m) h) ∈ h :: t ∧
    dateLeb h (t.foldl (fun m x => if dateLtb m x then x else m) h) = true ∧
    ∀ x ∈ t, dateLeb x (t.foldl (fun m x => if dateLtb m x then x else m) h) = true := by
  intro t
  induction t with
  | nil =>
    intro h
    exact ⟨List.mem_cons_self h [], dateLeb_refl h, by simp⟩
  | cons y ty ih =>
    intro h
    simp only [List.foldl_cons]
    obtain ⟨hmem, hle, hall⟩ := ih (if dateLtb h y then y else h)
    have hm'h : dateLeb h (if dateLtb h y then y else h) = true := by
      by_cases hlt : dateLtb h y = true
      · rw [if_pos hlt]; exact dateLtb_le h y hlt
      · rw [if_neg hlt]; exact dateLeb_refl h
    have hm'y : dateLeb y (if dateLtb h y then y else h) = true := by
      by_cases hlt : dateLtb h y = true
      · rw [if_pos hlt]; exact dateLeb_refl y
      · rw [if_neg hlt]
        exact not_dateLtb_ge h y (by rw [Bool.not_eq_true] at hlt; exact hlt)
    refine ⟨?_, dateLeb_trans h _ _ hm'h hle, ?_⟩
    · rcases List.mem_cons.mp hmem with hc | hc
      · rw [hc]
        by_cases hlt : dateLtb h y = true
      -- membership of the seed in the larger list
        · rw [if_pos hlt]
          exact List.mem_cons_of_mem h (List.mem_cons_self y ty)
        · rw [if_neg hlt]
          exact List.mem_cons_self h _
      · exact List.mem_cons_of_mem h (List.mem_cons_of_mem y hc)
    · intro x hx
      rcases List.mem_cons.mp hx with hc | hc
      · rw [hc]
        exact dateLeb_trans y _ _ hm'y hle
      · exact hall x hc

theorem pyMaxDate_spec (l : List PyDate) (d : PyDate) (h : pyMaxDate l = some d) :
    d ∈ l ∧ ∀ x ∈ l, dateLeb x d = true := by
  cases l with
  | nil => simp [pyMaxDate] at h
  | cons hd t =>
    simp only [pyMaxDate, Option.some.injEq] at h
    obtain ⟨hmem, hle, hall⟩ := pyMax_fold_spec t hd
    rw [h] at hmem hle hall
    refine ⟨hmem, ?_⟩
    intro x hx
    rcases List.mem_cons.mp hx with hc | hc
    · rw [hc]; exact hle
    · exact hall x hc

theorem dedup_fold_spec : ∀ (l : List PyVal) (acc : List PyVal), acc.Nodup →
    (l.foldl (fun acc v => if acc.contains v then acc else acc ++ [v]) acc).Nodup ∧
    (l.foldl (fun acc v => if acc.contains v then acc else acc ++ [v]) acc).toFinset =
      acc.toFinset ∪ l.toFinset := by
  intro l
  induction l with
  | nil => intro acc hnd; simp [hnd]
  | cons v t ih =>
    intro acc hnd
    simp only [List.foldl_cons]
    have hstep : ((if acc.contains v then acc else acc ++ [v]).Nodup) ∧
        (if acc.contains v then acc else acc ++ [v]).toFinset = acc.toFinset ∪ {v} := by
      by_cases hc : acc.contains v = true
      · have hm : v ∈ acc := by simpa using hc
        rw [if_pos hc]
        refine ⟨hnd, ?_⟩
        rw [Finset.union_comm, Finset.union_eq_right.mpr ?_]
        simpa using hm
      · have hm : v ∉ acc := by
          intro hcon
          exact hc (by simpa using hcon)
        rw [if_neg hc]
        constructor
        · simp [List.nodup_append, hnd, hm]
        · simp [List.toFinset_append]
    obtain ⟨hnd1, hfs1⟩ := hstep
    obtain ⟨hnd2, hfs2⟩ := ih _ hnd1
    refine ⟨hnd2, ?_⟩
    rw [hfs2, hfs1, List.toFinset_cons, Finset.insert_eq, Finset.union_assoc]

theorem dedupVals_length (l : List PyVal) : (dedupVals l).length = l.toFinset.card := by
  obtain ⟨hnd, hfs⟩ := dedup_fold_spec l [] (List.nodup_nil)
  unfold dedupVals
  rw [← List.toFinset_card_of_nodup hnd, hfs]
  simp

theorem calc_stats_insights (records : List HealthRecord) (files : List String) :
    (calculate_import_statistics records files).key_insights = keyInsightsOf records := rfl

/-- C7: the key insights are exactly, in order: the most recent lab date
(present iff some lab record has a date, and truly a maximum of the lab
dates), the count of medication records dated on or after 2024-01-01
(always present), the top-two-years line (present iff the year histogram
is non-empty, stably ordered by descending count), and the number of
distinct truthy lab item descriptions (always present). -/
theorem key_insights_spec (records : List HealthRecord) (files : List String) :
    (specLabDates records = [] →
      (calculate_import_statistics records files).key_insights = specInsightsTail records) ∧
    (specLabDates records ≠ [] →
      ∃ dmax, dmax ∈ specLabDates records ∧
        (∀ x ∈ specLabDates records, dateLeb x dmax = true) ∧
        (calculate_import_statistics records files).key_insights =
          ("Most recent lab test: " ++ dateToString dmax) :: specInsightsTail records) := by
  have htail : specInsightsTail records =
      ("Recent medications: " ++ toString
        (((records.filter (fun r => r.record_category == "MEDICATION")).filter
          medRecentPred).length)) ::
      ((if (timelineOf records).isEmpty then []
        else ["Years with most complete data: " ++ String.intercalate ", "
          (((sortByCount (timelineOf records)).take 2).map (fun p => toString p.1))]) ++
      ["Total unique lab tests tracked: " ++
        toString (dedupVals (specLabDescriptions records)).length]) := by
    unfold specInsightsTail specRecentMedsCount specTimeline
    rw [List.countP_eq_length_filter, ← dedupVals_length]
  constructor
  · intro hld
    rw [calc_stats_insights, htail]
    unfold keyInsightsOf
    rw [hld]
    rfl
  · intro hne
    obtain ⟨hd, t, hld⟩ : ∃ hd t, specLabDates records = hd :: t := by
      cases hcase : specLabDates records with
      | nil => exact absurd hcase hne
      | cons a b => exact ⟨a, b, rfl⟩
    have hmax : pyMaxDate (specLabDates records) =
        some (t.foldl (fun m x => if dateLtb m x then x else m) hd) := by
      rw [hld]
      rfl
    obtain ⟨hmem, hall⟩ := pyMaxDate_spec (specLabDates records) _ hmax
    refine ⟨_, hmem, hall, ?_⟩
    rw [calc_stats_insights, htail]
    unfold keyInsightsOf mostRecentLabInsight
    rw [hmax]
    rfl

/-- Witness for C7: one dated lab record yields the four insights with the
most-recent-lab line in front. -/
theorem key_insights_spec_witness :
    (calculate_import_statistics
        [{ record_category := "LAB", record_date := some ⟨2024, 3, 5⟩,
           item_description := some (PyVal.vStr "HbA1c") }] ["f"]).key_insights =
      "Most recent lab test: 2024-03-05" :: specInsightsTail
        [{ record_category := "LAB", record_date := some ⟨2024, 3, 5⟩,
           item_description := some (PyVal.vStr "HbA1c") }] := by
  have h := (key_insights_spec
    [{ record_category := "LAB", record_date := some ⟨2024, 3, 5⟩,
       item_description := some (PyVal.vStr "HbA1c") }] ["f"]).2 (by decide)
  obtain ⟨dmax, hmem, _, he⟩ := h
  have hdl : specLabDates
      [{ record_category := "LAB", record_date := some ⟨2024, 3, 5⟩,
         item_description := some (PyVal.vStr "HbA1c") }] = [⟨2024, 3, 5⟩] := by decide
  rw [hdl] at hmem
  have hdm : dmax = ⟨2024, 3, 5⟩ := by simpa using hmem
  rw [he, hdm]
  rfl
